import Mathlib

set_option maxRecDepth 8192

/-!
Shallow embedding of the intent-resolution and dispatch core of
`src/mock_snow.py` (ServiceNow AI agent).  Pure string/dict manipulation is
translated directly; the external Gemini call, the HTTP backend and the
retry wrapper are parameterized by explicit outcome values.  Python strings
are modeled as Lean `String`s with ASCII-faithful case and character-class
helpers (the repository's rule patterns and claims only involve ASCII text).
-/

namespace SnowAgent

/-! Character helpers mirroring the Python string operations used by
`mock_snow.py`: `str.lower`, `str.upper`, `str.strip` whitespace, and the
regex classes `\w` and `\d` (ASCII fragment). -/

/-- ASCII uppercase letter test (codepoints 65..90). -/
def isUpperC (c : Char) : Bool := 65 ≤ c.toNat && c.toNat ≤ 90

/-- ASCII lowercase letter test (codepoints 97..122). -/
def isLowerC (c : Char) : Bool := 97 ≤ c.toNat && c.toNat ≤ 122

/-- ASCII digit test, the regex class `\d` (codepoints 48..57). -/
def isDigitC (c : Char) : Bool := 48 ≤ c.toNat && c.toNat ≤ 57

/-- Regex word-character class `\w`: letter, digit or underscore (ASCII). -/
def isWordC (c : Char) : Bool := isUpperC c || isLowerC c || isDigitC c || c.toNat == 95

/-- Python `str.strip` whitespace: space, tab, newline, carriage return,
vertical tab, form feed (codepoints 32 and 9..13). -/
def pyIsSpace (c : Char) : Bool := c.toNat == 32 || (9 ≤ c.toNat && c.toNat ≤ 13)

/-- Python `str.lower` on one ASCII character. -/
def pyToLower (c : Char) : Char := if isUpperC c then Char.ofNat (c.toNat + 32) else c

/-- Python `str.upper` on one ASCII character. -/
def pyToUpper (c : Char) : Char := if isLowerC c then Char.ofNat (c.toNat - 32) else c

/-- Python `str.lower` over a character list. -/
def lowerChars (l : List Char) : List Char := l.map pyToLower

/-- Python truthiness test `not s or s.strip() == ""` for a string `s`:
true exactly when every character is whitespace (the empty string included). -/
def isBlank (s : String) : Bool := s.data.all pyIsSpace

/-- Python `str.capitalize`: first character upper-cased, the rest lower-cased. -/
def pyCapitalize : List Char → List Char
  | [] => []
  | c :: rest => pyToUpper c :: rest.map pyToLower

/-! Minimal matching engine for the two regular expressions appearing in
`analyze_email` (`src/mock_snow.py` lines 113 and 117).  Both patterns are
backtracking-free (fixed-width classes and a final greedy `\w+` / `.+`),
so leftmost-match search is a plain scan. -/

/-- Match a literal character sequence at the head of the input, returning
the remainder on success. -/
def dropLit : List Char → List Char → Option (List Char)
  | [], l => some l
  | _ :: _, [] => none
  | p :: ps, c :: cs => if c = p then dropLit ps cs else none

/-- Match a literal case-insensitively at the head of the input (used for the
`re.IGNORECASE` comment pattern); the pattern is given in lowercase. -/
def dropLitCI : List Char → List Char → Option (List Char)
  | [], l => some l
  | _ :: _, [] => none
  | p :: ps, c :: cs => if pyToLower c = p then dropLitCI ps cs else none

/-- Match exactly `n` characters satisfying `p` at the head of the input,
returning the matched characters and the remainder. -/
def takeExact (p : Char → Bool) : Nat → List Char → Option (List Char × List Char)
  | 0, l => some ([], l)
  | _ + 1, [] => none
  | n + 1, c :: cs =>
    if p c then
      match takeExact p n cs with
      | some (g, r) => some (c :: g, r)
      | none => none
    else none

/-- Python substring containment `pat in l`. -/
def containsSub (pat : List Char) : List Char → Bool
  | [] => pat.isEmpty
  | c :: rest => pat.isPrefixOf (c :: rest) || containsSub pat rest

/-- Attempt the pattern `set ticket (\w{3}\d{7}) to (\w+)` anchored at the
head of the (already lower-cased) input; returns the two capture groups. -/
def tryTicketAt (l : List Char) : Option (List Char × List Char) :=
  match dropLit "set ticket ".data l with
  | none => none
  | some r1 =>
    match takeExact isWordC 3 r1 with
    | none => none
    | some (g1a, r2) =>
      match takeExact isDigitC 7 r2 with
      | none => none
      | some (g1b, r3) =>
        match dropLit " to ".data r3 with
        | none => none
        | some r4 =>
          let g2 := r4.takeWhile isWordC
          if g2.isEmpty then none else some (g1a ++ g1b, g2)

/-- Leftmost-match search for the ticket-command pattern, as performed by
`re.search` in `analyze_email` (line 113). -/
def searchTicketCmd : List Char → Option (List Char × List Char)
  | [] => none
  | c :: rest =>
    match tryTicketAt (c :: rest) with
    | some r => some r
    | none => searchTicketCmd rest

/-- Attempt the pattern `with comment: (.+)` (case-insensitive) anchored at
the head of the original input; `.` excludes newlines and `.+` is greedy, so
the capture runs to the next newline or the end of input and must be
non-empty. -/
def tryCommentAt (l : List Char) : Option (List Char) :=
  match dropLitCI "with comment: ".data l with
  | none => none
  | some r =>
    let g := r.takeWhile (fun c => c ≠ '\n')
    if g.isEmpty then none else some g

/-- Leftmost-match search for the comment-clause pattern, as performed by
`re.search` with `re.IGNORECASE` in `analyze_email` (line 117). -/
def searchComment : List Char → Option (List Char)
  | [] => none
  | c :: rest =>
    match tryCommentAt (c :: rest) with
    | some g => some g
    | none => searchComment rest

/-! Data model: the dict-shaped action mappings flowing from `analyze_email`
to `process_emails`, with `.get` lookups modeled by `Option` fields. -/

/-- Action mapping produced by `analyze_email` and consumed by
`process_emails`; each field models `analysis.get(key)` (absent key = `none`). -/
structure RawAction where
  action : Option String
  priority : Option String
  table : Option String
  status : Option String
  ticket_number : Option String
  comment : Option String
deriving DecidableEq, Repr

/-- Safe default mapping returned on every failure path of `analyze_email`
(`src/mock_snow.py` lines 99, 103, 134, 161, 164, 168). -/
def safeDefault : RawAction :=
  ⟨some "ignore", some "normal", some "incident", some "New", none, none⟩

/-- Mapping returned for bodies starting with `change:` (line 108). -/
def changeAct : RawAction :=
  ⟨some "create_change", some "normal", some "change_request", some "New", none, none⟩

/-- Status-name to wire-code table appearing both in `analyze_email`
(lines 119-122) and `update_ticket` (lines 204-207). -/
def stateMap : List (String × String) :=
  [("New", "1"), ("In Progress", "2"), ("On Hold", "3"),
   ("Resolved", "6"), ("Closed", "7"), ("Cancelled", "8")]

/-- Rule-matcher update branch of `analyze_email` (lines 111-134): search the
lower-cased body for the ticket command; on a match, upper-case the ticket
number, capitalize the status word, derive the table from the `INC` prefix,
and take the comment from the original body (defaulting when absent); an
unrecognized status yields the safe default mapping.  Returns `none` when the
regex finds no match (control falls through to the Gemini prompt). -/
def ruleUpdateMatch (body : String) : Option RawAction :=
  match searchTicketCmd (lowerChars body.data) with
  | none => none
  | some (g1, g2) =>
    let tnL := g1.map pyToUpper
    let tn : String := ⟨tnL⟩
    let st : String := ⟨pyCapitalize g2⟩
    if (stateMap.lookup st).isSome then
      let cm : String :=
        match searchComment body.data with
        | some g => ⟨g⟩
        | none => "Updated via email"
      some ⟨some "update_ticket", none,
            some (if "INC".data.isPrefixOf tnL then "incident" else "change_request"),
            some st, some tn, some cm⟩
    else
      some safeDefault

/-- Outcome of the guarded Gemini call in `analyze_email` (lines 148-168):
either the response text parsed as JSON into a mapping, or one of the three
caught failure classes (`json.JSONDecodeError`, `exceptions.ResourceExhausted`,
any other exception). -/
inductive GeminiOutcome
  | parsed (raw : RawAction)
  | parseFailed
  | quotaExceeded
  | otherFailure
deriving DecidableEq

/-- Result of the try/except block around the Gemini call: a successfully
parsed mapping is returned unchanged, every caught failure yields the safe
default (lines 156-168). -/
def geminiFallback : GeminiOutcome → RawAction
  | .parsed raw => raw
  | .parseFailed => safeDefault
  | .quotaExceeded => safeDefault
  | .otherFailure => safeDefault

/-- Embedding of `analyze_email` (lines 96-168).  `modelInit` models the
global `model` handle being non-`None`; `g` models the outcome of the Gemini
call (reached only when no earlier branch returns). -/
def analyze_email (modelInit : Bool) (body : String) (g : GeminiOutcome) : RawAction :=
  if !modelInit then safeDefault
  else if isBlank body then safeDefault
  else if "change:".data.isPrefixOf (lowerChars body.data) then changeAct
  else if containsSub "set ticket".data (lowerChars body.data) then
    match ruleUpdateMatch body with
    | some a => a
    | none => geminiFallback g
  else geminiFallback g

/-- Condition under which `analyze_email` reaches the Gemini call: the model
is initialized, the body is not blank, no `change:` prefix, and the ticket
command regex does not match. -/
def geminiReached (modelInit : Bool) (body : String) : Bool :=
  modelInit && !isBlank body &&
    !("change:".data.isPrefixOf (lowerChars body.data)) &&
    (!containsSub "set ticket".data (lowerChars body.data) ||
      (ruleUpdateMatch body).isNone)

/-! Dispatch side: `create_ticket`, `update_ticket` payload construction and
the per-email action dispatch in `process_emails` (lines 303-328). -/

/-- JSON body of the `POST /{table}` create request (lines 176-185). -/
structure CreatePayload where
  short_description : String
  description : String
  assignment_group : String
  urgency : String
  impact : String
  state : String
  approval : Option String
deriving DecidableEq, Repr

/-- Create-request payload built by `create_ticket` (lines 176-185):
urgency and impact are "1" for high priority and "2" otherwise, the initial
state is "1", and `approval = "requested"` is added exactly for the
`change_request` table. -/
def createPayload (table : Option String) (subject description : String)
    (priority : Option String) : CreatePayload :=
  ⟨subject, description, "287ebd7da9fe198100f92cc8d1d2154e",
   if priority = some "high" then "1" else "2",
   if priority = some "high" then "1" else "2",
   "1",
   if table = some "change_request" then some "requested" else none⟩

/-- Outcome of the create POST as observed by `create_ticket`: an HTTP
response with status code and the `result.sys_id` / `result.number` fields,
or an exception anywhere in the try block. -/
inductive SnowCreateResult
  | http (status : Nat) (sysId : String) (number : String)
  | exnFailure
deriving DecidableEq

/-- Return value of `create_ticket` (lines 189-199): the two ids on a 201
response, `(None, None)` on any other status or on an exception. -/
def snowIds : SnowCreateResult → Option String × Option String
  | .http s sid num => if s = 201 then (some sid, some num) else (none, none)
  | .exnFailure => (none, none)

/-- Embedding of `create_ticket` (lines 170-199): builds the create payload
and reports the backend's acknowledgement, pairing the payload with the
returned ids. -/
def create_ticket (table : Option String) (subject description : String)
    (priority : Option String) (r : SnowCreateResult) :
    CreatePayload × (Option String × Option String) :=
  (createPayload table subject description priority, snowIds r)

/-- JSON body of the `PATCH /{table}/{ticket}` update request (lines 208-214). -/
structure UpdatePayload where
  state : String
  comments : Option String
  priority : String
  approval : Option String
deriving DecidableEq, Repr

/-- Update-request payload built by `update_ticket` (lines 201-214): the wire
state is looked up in the status map with default "1", priority is "1" for
high and "4" otherwise, and `approval = "approved"` is added exactly when the
table is `change_request` and the status is `In Progress`. -/
def updatePayload (table : Option String) (status : Option String)
    (comment : Option String) (priority : Option String) : UpdatePayload :=
  ⟨(match status with
    | some s => (stateMap.lookup s).getD "1"
    | none => "1"),
   comment,
   if priority = some "high" then "1" else "4",
   if table = some "change_request" ∧ status = some "In Progress" then some "approved"
   else none⟩

/-- Python truthiness of an optional string: `None` and the empty string are
falsy (the `if ticket_id:` test in `process_emails`, line 313). -/
def pyTruthy : Option String → Bool
  | none => false
  | some s => !(s == "")

/-- Observable effect of dispatching one analyzed email in `process_emails`
(lines 309-328): for creations the flags record whether the subject was
appended to the ledger file and whether an approval email was sent. -/
inductive DispatchEffect
  | ignored
  | created (table : Option String) (payload : CreatePayload)
      (ledgerAppended : Bool) (approvalSent : Bool)
  | updated (table : Option String) (ticketNumber : Option String)
      (payload : UpdatePayload)
  | transitionUnimplemented
  | approvalReplyLogged
  | unknownAction
deriving DecidableEq

/-- Embedding of the action dispatch in `process_emails` (lines 303-328):
reads the mapping's fields with `.get`, branches on the action string, and
for creations appends to the ledger and sends the approval email only when
the returned `sys_id` is truthy (and, for the email, the table is
`change_request`). -/
def dispatchStep (analysis : RawAction) (subject body : String)
    (r : SnowCreateResult) : DispatchEffect :=
  let action := analysis.action
  let priority := analysis.priority
  let table := analysis.table
  if action = some "ignore" then .ignored
  else if action = some "create_incident" ∨ action = some "create_change" then
    let res := create_ticket table subject body priority r
    let ok := pyTruthy res.2.1
    .created table res.1 ok (ok && (table == some "change_request"))
  else if action = some "update_ticket" then
    .updated table analysis.ticket_number
      (updatePayload table analysis.status analysis.comment priority)
  else if action = some "set_new" ∨ action = some "set_in_progress" ∨
      action = some "set_on_hold" ∨ action = some "set_resolved" ∨
      action = some "set_closed" ∨ action = some "set_cancelled" then
    .transitionUnimplemented
  else if action = some "approve" ∨ action = some "deny" then .approvalReplyLogged
  else .unknownAction

/-! Retry wrapper model. -/

/-- Outcome of one raw Gemini invocation inside the retry wrapper. -/
inductive GCallOutcome
  | succeeded
  | rateLimited
  | otherError
deriving DecidableEq

/-- Modelled from the spec: the backoff schedule of the `retry.Retry`
decorator on `call_gemini_with_retry` (line 92).  The decorator's semantics
live in the external `google.api_core` library, not in the repository; the
spec describes them as exponential backoff with initial delay 46 seconds,
multiplier 2 and maximum 120 seconds, so the wait before the i-th retry is
`min (46 * 2 ^ i) 120`. -/
def backoffDelay (i : Nat) : Nat := min (46 * 2 ^ i) 120

/-- Result of running the retry wrapper: success or a propagated
non-retryable error, each carrying the list of waits performed, or the end of
the supplied outcome sequence. -/
inductive RetryOutcome
  | ok (delays : List Nat)
  | raised (delays : List Nat)
  | gaveUp (delays : List Nat)
deriving DecidableEq

/-- Modelled from the spec: the retry loop of `call_gemini_with_retry`
(line 92-94) run against a sequence of call outcomes, starting at attempt
index `i`.  Only the rate-limit class is retried (after the scheduled wait);
success returns immediately and any other error propagates without a retry. -/
def retryRun : List GCallOutcome → Nat → RetryOutcome
  | [], _ => .gaveUp []
  | .succeeded :: _, _ => .ok []
  | .otherError :: _, _ => .raised []
  | .rateLimited :: rest, i =>
    match retryRun rest (i + 1) with
    | .ok ds => .ok (backoffDelay i :: ds)
    | .raised ds => .raised (backoffDelay i :: ds)
    | .gaveUp ds => .gaveUp (backoffDelay i :: ds)

/-! Patterns from the specification's words, for comparison with what the
code produces. -/

/-- Ticket-number pattern stated by the spec: `[A-Z]{3}\d{7}`, exactly three
uppercase letters followed by seven digits. -/
def specTicketPattern (s : String) : Bool :=
  s.data.length == 10 && (s.data.take 3).all isUpperC && (s.data.drop 3).all isDigitC

/-- Upper-cased word character: what the code's `\w{3}` fragment actually
guarantees after `.upper()` — an uppercase letter, a digit, or an underscore. -/
def upperWordChar (c : Char) : Bool := isUpperC c || isDigitC c || c.toNat == 95

/-- Shape of ticket numbers actually produced by the rule matcher: ten
characters, the first three upper-cased word characters, the last seven
digits. -/
def wordTicketShape (s : String) : Bool :=
  s.data.length == 10 && (s.data.take 3).all upperWordChar && (s.data.drop 3).all isDigitC

/-! Supporting lemmas. -/

/-- Round-trip of `Char.ofNat` on the ASCII letter range used by the case
conversions. -/
theorem toNat_ofNat_ascii (n : Nat) (h1 : 65 ≤ n) (h2 : n ≤ 122) :
    (Char.ofNat n).toNat = n := by
  interval_cases n <;> decide

/-- Upper-casing a word character yields an upper-cased word character. -/
theorem upperWordChar_pyToUpper (c : Char) (h : isWordC c = true) :
    upperWordChar (pyToUpper c) = true := by
  simp only [isWordC, isUpperC, isLowerC, isDigitC, Bool.or_eq_true, Bool.and_eq_true,
    decide_eq_true_eq, beq_iff_eq] at h
  rw [pyToUpper]
  by_cases hl : isLowerC c = true
  · rw [if_pos hl]
    simp only [isLowerC, Bool.and_eq_true, decide_eq_true_eq] at hl
    have hv : (Char.ofNat (c.toNat - 32)).toNat = c.toNat - 32 :=
      toNat_ofNat_ascii _ (by omega) (by omega)
    simp only [upperWordChar, isUpperC, isDigitC, Bool.or_eq_true, Bool.and_eq_true,
      decide_eq_true_eq, beq_iff_eq, hv]
    omega
  · rw [if_neg hl]
    simp only [isLowerC, Bool.and_eq_true, decide_eq_true_eq] at hl
    simp only [upperWordChar, isUpperC, isDigitC, Bool.or_eq_true, Bool.and_eq_true,
      decide_eq_true_eq, beq_iff_eq]
    omega

/-- Upper-casing leaves a digit unchanged. -/
theorem pyToUpper_digit (c : Char) (h : isDigitC c = true) : pyToUpper c = c := by
  simp only [isDigitC, Bool.and_eq_true, decide_eq_true_eq] at h
  have hl : ¬(isLowerC c = true) := by
    simp only [isLowerC, Bool.and_eq_true, decide_eq_true_eq, not_and]
    omega
  rw [pyToUpper, if_neg hl]

/-- Characters matched by `takeExact p n` number exactly `n` and all satisfy
`p`. -/
theorem takeExact_spec (p : Char → Bool) (n : Nat) :
    ∀ (l g r : List Char), takeExact p n l = some (g, r) →
      g.length = n ∧ g.all p = true := by
  induction n with
  | zero =>
    intro l g r h
    simp only [takeExact, Option.some.injEq, Prod.mk.injEq] at h
    obtain ⟨hg, _⟩ := h
    subst hg
    simp
  | succ m ih =>
    intro l g r h
    cases l with
    | nil => simp [takeExact] at h
    | cons c cs =>
      simp only [takeExact] at h
      by_cases hp : p c = true
      · rw [if_pos hp] at h
        cases hcs : takeExact p m cs with
        | none =>
          rw [hcs] at h
          cases h
        | some pr =>
          obtain ⟨g0, r0⟩ := pr
          simp only [hcs, Option.some.injEq, Prod.mk.injEq] at h
          obtain ⟨hg, _⟩ := h
          subst hg
          obtain ⟨ihl, iha⟩ := ih cs g0 r0 hcs
          simp [List.all_cons, hp, iha, ihl]
      · rw [if_neg hp] at h
        cases h

/-- Shape of the first capture group of the ticket-command pattern: ten
characters, the first three word characters, the last seven digits. -/
theorem tryTicketAt_shape (l g1 g2 : List Char) (h : tryTicketAt l = some (g1, g2)) :
    g1.length = 10 ∧ (g1.take 3).all isWordC = true ∧ (g1.drop 3).all isDigitC = true := by
  unfold tryTicketAt at h
  cases h1 : dropLit "set ticket ".data l with
  | none =>
    rw [h1] at h
    cases h
  | some r1 =>
    simp only [h1] at h
    cases h2 : takeExact isWordC 3 r1 with
    | none =>
    rw [h2] at h
    cases h
    | some pr2 =>
      obtain ⟨ga, r2⟩ := pr2
      simp only [h2] at h
      cases h3 : takeExact isDigitC 7 r2 with
      | none =>
    rw [h3] at h
    cases h
      | some pr3 =>
        obtain ⟨gb, r3⟩ := pr3
        simp only [h3] at h
        cases h4 : dropLit " to ".data r3 with
        | none =>
    rw [h4] at h
    cases h
        | some r4 =>
          simp only [h4] at h
          by_cases h5 : (r4.takeWhile isWordC).isEmpty = true
          · rw [if_pos h5] at h
            cases h
          · rw [if_neg h5] at h
            simp only [Option.some.injEq, Prod.mk.injEq] at h
            obtain ⟨hg1, _⟩ := h
            subst hg1
            obtain ⟨la, aa⟩ := takeExact_spec isWordC 3 r1 ga r2 h2
            obtain ⟨lb, ab⟩ := takeExact_spec isDigitC 7 r2 gb r3 h3
            refine ⟨by simp [la, lb], ?_, ?_⟩
            · have : (ga ++ gb).take 3 = ga := by
                rw [← la]
                exact List.take_left ga gb
              rw [this]
              exact aa
            · have : (ga ++ gb).drop 3 = gb := by
                rw [← la]
                exact List.drop_left ga gb
              rw [this]
              exact ab

/-- The leftmost-match search inherits the capture shape from `tryTicketAt`. -/
theorem searchTicketCmd_shape (l g1 g2 : List Char)
    (h : searchTicketCmd l = some (g1, g2)) :
    g1.length = 10 ∧ (g1.take 3).all isWordC = true ∧ (g1.drop 3).all isDigitC = true := by
  induction l with
  | nil => simp [searchTicketCmd] at h
  | cons c rest ih =>
    unfold searchTicketCmd at h
    cases ht : tryTicketAt (c :: rest) with
    | some pr =>
      obtain ⟨a, b⟩ := pr
      simp only [ht, Option.some.injEq, Prod.mk.injEq] at h
      obtain ⟨ha, hb⟩ := h
      subst ha
      exact tryTicketAt_shape (c :: rest) _ _ ht
    | none =>
      simp only [ht] at h
      exact ih h

/-- Characterization of the mappings produced by the rule-matcher update
branch: either the safe default (unrecognized status), or an `update_ticket`
mapping with no priority, whose ticket number is the upper-cased first
capture group and whose table is derived from the `INC` prefix. -/
theorem ruleUpdateMatch_spec (body : String) (a : RawAction)
    (h : ruleUpdateMatch body = some a) :
    a = safeDefault ∨
    (a.action = some "update_ticket" ∧ a.priority = none ∧
     ∃ tnL : List Char,
       a.ticket_number = some ⟨tnL.map pyToUpper⟩ ∧
       a.table = some (if "INC".data.isPrefixOf (tnL.map pyToUpper) then "incident"
                       else "change_request") ∧
       tnL.length = 10 ∧ (tnL.take 3).all isWordC = true ∧
       (tnL.drop 3).all isDigitC = true) := by
  unfold ruleUpdateMatch at h
  cases hs : searchTicketCmd (lowerChars body.data) with
  | none =>
    rw [hs] at h
    cases h
  | some pr =>
    obtain ⟨g1, g2⟩ := pr
    simp only [hs] at h
    obtain ⟨l10, w3, d7⟩ := searchTicketCmd_shape _ _ _ hs
    by_cases hv : (stateMap.lookup (⟨pyCapitalize g2⟩ : String)).isSome = true
    · rw [if_pos hv] at h
      right
      injection h with h
      subst h
      exact ⟨rfl, rfl, g1, rfl, rfl, l10, w3, d7⟩
    · rw [if_neg hv] at h
      injection h with h
      subst h
      left
      rfl

/-! Claim C1. -/

/-- C1 counterexample: a raw `update_ticket` mapping with ticket number
`INC0000001` but classifier-supplied table `change_request` is returned by
`analyze_email` unchanged (no validator re-derives the table), and the
dispatched update targets table `change_request`, not `incident` as the claim
requires. -/
theorem c1_counterexample :
    analyze_email true "please handle my existing ticket"
        (GeminiOutcome.parsed ⟨some "update_ticket", none, some "change_request",
          some "Resolved", some "INC0000001", some "client comment"⟩) =
      ⟨some "update_ticket", none, some "change_request", some "Resolved",
        some "INC0000001", some "client comment"⟩ ∧
    dispatchStep ⟨some "update_ticket", none, some "change_request", some "Resolved",
        some "INC0000001", some "client comment"⟩ "subj" "please handle my existing ticket"
        SnowCreateResult.exnFailure =
      DispatchEffect.updated (some "change_request") (some "INC0000001")
        (updatePayload (some "change_request") (some "Resolved") (some "client comment") none) ∧
    (some "change_request" : Option String) ≠ some "incident" := by
  decide

/-- C1 (amended): only the rule matcher's update branch derives `table` from
the ticket number's prefix (`INC` prefix gives incident, anything else gives
change_request); classifier-produced mappings are dispatched unvalidated with
the classifier-supplied table. -/
theorem c1_table_from_rule_prefix (body : String) (a : RawAction)
    (h : ruleUpdateMatch body = some a) (h2 : a.action = some "update_ticket") :
    a.ticket_number.isSome = true ∧
    a.table = a.ticket_number.map
      (fun t => if "INC".data.isPrefixOf t.data then "incident" else "change_request") := by
  rcases ruleUpdateMatch_spec body a h with hsd | ⟨_, _, tnL, htn, htb, _, _, _⟩
  · subst hsd
    exact absurd h2 (by decide)
  · rw [htn, htb]
    exact ⟨rfl, rfl⟩

/-- C1 witness: concrete instance of the amended claim on a rule-matched
body. -/
theorem c1_table_from_rule_prefix_witness :
    (some "INC0000001" : Option String).isSome = true ∧
    (some "incident" : Option String) = (some "INC0000001" : Option String).map
      (fun t => if "INC".data.isPrefixOf t.data then "incident" else "change_request") :=
  c1_table_from_rule_prefix "set ticket inc0000001 to resolved"
    ⟨some "update_ticket", none, some "incident", some "Resolved",
      some "INC0000001", some "Updated via email"⟩
    (by decide) rfl

/-! Claim C2. -/

/-- C2 counterexample: when the model client did not initialize, a body
starting with `Change:` does NOT yield `create_change` — the model check
precedes the rule, so the safe default `ignore` mapping is returned. -/
theorem c2_counterexample :
    analyze_email false "Change: install software" GeminiOutcome.otherFailure = safeDefault ∧
    safeDefault.action = some "ignore" ∧
    safeDefault.action ≠ some "create_change" := by
  decide

/-- C2 (amended): provided the model client initialized, every body that
case-insensitively starts with `change:` resolves to
`create_change`/`change_request`/`New`/`normal` immediately, regardless of
the rest of the body (including a `set ticket` command) and of the Gemini
outcome. -/
theorem c2_change_prefix_rule (body : String) (g : GeminiOutcome)
    (h : "change:".data.isPrefixOf (lowerChars body.data) = true) :
    analyze_email true body g = changeAct := by
  have hnb : isBlank body = false := by
    cases hd : body.data with
    | nil =>
      rw [hd] at h
      simp [lowerChars, List.isPrefixOf] at h
    | cons c0 rest =>
      rw [hd] at h
      simp only [lowerChars, List.map_cons, List.isPrefixOf, Bool.and_eq_true,
        beq_iff_eq] at h
      have hc : pyToLower c0 = 'c' := h.1.symm
      by_contra hb
      rw [Bool.not_eq_false] at hb
      rw [isBlank, hd] at hb
      simp only [List.all_cons, Bool.and_eq_true] at hb
      have hs := hb.1
      simp only [pyIsSpace, Bool.or_eq_true, Bool.and_eq_true, decide_eq_true_eq,
        beq_iff_eq] at hs
      have hu : ¬(isUpperC c0 = true) := by
        simp only [isUpperC, Bool.and_eq_true, decide_eq_true_eq, not_and]
        omega
      rw [pyToLower, if_neg hu] at hc
      subst hc
      exact absurd hs (by decide)
  rw [analyze_email, if_neg (by decide), if_neg (by rw [hnb]; decide), if_pos h]

/-- C2 witness: a `Change:`-prefixed body containing a `set ticket` command
still resolves to the change action. -/
theorem c2_change_prefix_rule_witness :
    analyze_email true "Change: reboot server set ticket INC0000001 to resolved"
      GeminiOutcome.parseFailed = changeAct :=
  c2_change_prefix_rule _ _ (by decide)

/-! Claim C3. -/

/-- C3: `analyze_email` resolves every failure path to the safe default
mapping: model uninitialized, blank body, or (when the Gemini call is
reached) JSON parse failure, the rate-limit error escaping the retry, or any
other exception. -/
theorem c3_failure_paths_safe_default (modelInit : Bool) (body : String) (g : GeminiOutcome)
    (h : modelInit = false ∨ isBlank body = true ∨
      (geminiReached modelInit body = true ∧
        (g = GeminiOutcome.parseFailed ∨ g = GeminiOutcome.quotaExceeded ∨
          g = GeminiOutcome.otherFailure))) :
    analyze_email modelInit body g = safeDefault := by
  have hfb : (g = GeminiOutcome.parseFailed ∨ g = GeminiOutcome.quotaExceeded ∨
      g = GeminiOutcome.otherFailure) → geminiFallback g = safeDefault := by
    rintro (rfl | rfl | rfl) <;> rfl
  rcases h with h | h | ⟨hr, hg⟩
  · subst h
    rfl
  · rw [analyze_email]
    cases modelInit with
    | false => rfl
    | true => rw [if_neg (by decide), if_pos h]
  · simp only [geminiReached, Bool.and_eq_true, Bool.or_eq_true, Bool.not_eq_true',
      Option.isNone_iff_eq_none] at hr
    obtain ⟨⟨⟨hm, hb⟩, hp⟩, hrule⟩ := hr
    subst hm
    rw [analyze_email, if_neg (by decide), if_neg (by rw [hb]; decide),
      if_neg (by rw [hp]; decide)]
    rcases hrule with hc | hn
    · rw [if_neg (by rw [hc]; decide)]
      exact hfb hg
    · by_cases hcs : containsSub "set ticket".data (lowerChars body.data) = true
      · rw [if_pos hcs, hn]
        exact hfb hg
      · rw [if_neg hcs]
        exact hfb hg

/-- C3 witness: with the model uninitialized, a non-empty body resolves to
the safe default. -/
theorem c3_failure_paths_safe_default_witness :
    analyze_email false "Printer broken" GeminiOutcome.otherFailure = safeDefault :=
  c3_failure_paths_safe_default false "Printer broken" GeminiOutcome.otherFailure (Or.inl rfl)

/-! Claim C4. -/

/-- C4: the modelled retry policy of `call_gemini_with_retry` — three
consecutive rate-limit failures followed by a success perform exactly three
delayed retries with strictly increasing waits 46, 92, 120 seconds before the
success is returned; a non-rate-limit error propagates with no retry; a
success returns at once; delays start at 46, double each attempt and are
capped at 120. -/
theorem c4_retry_policy :
    (retryRun [GCallOutcome.rateLimited, GCallOutcome.rateLimited, GCallOutcome.rateLimited,
        GCallOutcome.succeeded] 0 = RetryOutcome.ok [46, 92, 120] ∧
      46 < 92 ∧ 92 < 120) ∧
    (∀ rest : List GCallOutcome, retryRun (GCallOutcome.otherError :: rest) 0 =
      RetryOutcome.raised []) ∧
    (∀ rest : List GCallOutcome, retryRun (GCallOutcome.succeeded :: rest) 0 =
      RetryOutcome.ok []) ∧
    backoffDelay 0 = 46 ∧
    (∀ i : Nat, backoffDelay i ≤ 120) ∧
    (∀ i : Nat, backoffDelay (i + 1) = min (backoffDelay i * 2) 120) := by
  refine ⟨by decide, fun rest => rfl, fun rest => rfl, rfl,
    fun i => Nat.min_le_right _ _, fun i => ?_⟩
  have h2 : 46 * 2 ^ (i + 1) = 46 * 2 ^ i * 2 := by ring
  rw [backoffDelay, backoffDelay, h2]
  omega

/-! Claim C5. -/

/-- C5 counterexample: the rule matcher's regex uses `\w{3}`, not `[A-Z]{3}`,
so the body `set ticket 1230010111 to resolved` produces an `update_ticket`
action whose ticket number `1230010111` violates the spec's pattern
`[A-Z]{3}\d{7}`. -/
theorem c5_counterexample :
    (analyze_email true "set ticket 1230010111 to resolved"
        GeminiOutcome.otherFailure).action = some "update_ticket" ∧
    (analyze_email true "set ticket 1230010111 to resolved"
        GeminiOutcome.otherFailure).ticket_number = some "1230010111" ∧
    specTicketPattern "1230010111" = false := by
  decide

/-- C5 (amended): on every path of intent resolution other than the
unvalidated classifier pass-through, a ticket number is present only on
`update_ticket` actions, and when present it is ten characters long with the
first three upper-cased word characters (uppercase letter, digit or
underscore — not necessarily `[A-Z]`) and the last seven digits. -/
theorem c5_ticket_number_shape (modelInit : Bool) (body : String) (g : GeminiOutcome)
    (hg : ∀ raw, g ≠ GeminiOutcome.parsed raw) :
    (analyze_email modelInit body g).ticket_number = none ∨
    ((analyze_email modelInit body g).action = some "update_ticket" ∧
     ∃ s : String, (analyze_email modelInit body g).ticket_number = some s ∧
       wordTicketShape s = true) := by
  have hfb : geminiFallback g = safeDefault := by
    cases g with
    | parsed raw => exact absurd rfl (hg raw)
    | parseFailed => rfl
    | quotaExceeded => rfl
    | otherFailure => rfl
  rw [analyze_email]
  cases modelInit with
  | false => left; rfl
  | true =>
    rw [if_neg (by decide)]
    by_cases hb : isBlank body = true
    · rw [if_pos hb]
      left
      rfl
    · rw [if_neg hb]
      by_cases hc : "change:".data.isPrefixOf (lowerChars body.data) = true
      · rw [if_pos hc]
        left
        rfl
      · rw [if_neg hc]
        by_cases hst : containsSub "set ticket".data (lowerChars body.data) = true
        · rw [if_pos hst]
          cases hr : ruleUpdateMatch body with
          | none =>
            rw [hfb]
            left
            rfl
          | some a =>
            rcases ruleUpdateMatch_spec body a hr with rfl | ⟨ha, _, tnL, htn, _, l10, w3, d7⟩
            · left
              rfl
            · right
              refine ⟨ha, ⟨tnL.map pyToUpper⟩, htn, ?_⟩
              have hdata : (⟨tnL.map pyToUpper⟩ : String).data = tnL.map pyToUpper := rfl
              rw [wordTicketShape, hdata, Bool.and_eq_true, Bool.and_eq_true]
              rw [List.all_eq_true] at w3 d7
              refine ⟨⟨?_, ?_⟩, ?_⟩
              · simp [l10]
              · rw [← List.map_take, List.all_map, List.all_eq_true]
                intro c hcmem
                exact upperWordChar_pyToUpper c (w3 c hcmem)
              · rw [← List.map_drop, List.all_map, List.all_eq_true]
                intro c hcmem
                have hd := d7 c hcmem
                rw [Function.comp_apply, pyToUpper_digit c hd]
                exact hd
        · rw [if_neg hst, hfb]
          left
          rfl

/-- C5 witness: concrete instance of the amended claim on a rule-matched
body with a letter-prefixed ticket number. -/
theorem c5_ticket_number_shape_witness :
    (analyze_email true "set ticket abc0000001 to closed"
        GeminiOutcome.parseFailed).ticket_number = none ∨
    ((analyze_email true "set ticket abc0000001 to closed"
        GeminiOutcome.parseFailed).action = some "update_ticket" ∧
     ∃ s : String, (analyze_email true "set ticket abc0000001 to closed"
        GeminiOutcome.parseFailed).ticket_number = some s ∧
       wordTicketShape s = true) :=
  c5_ticket_number_shape true "set ticket abc0000001 to closed"
    GeminiOutcome.parseFailed (fun _ h => nomatch h)

/-! Claim C6. -/

/-- C6: the body `set ticket inc0010111 to resolved with comment: fixed root
cause` rule-matches to an `update_ticket` mapping with the ticket number
upper-cased, the status capitalized, the table derived from the `INC` prefix
and the comment taken from the original body; the same body without a comment
clause gets the default comment `Updated via email`. -/
theorem c6_set_ticket_example :
    analyze_email true "set ticket inc0010111 to resolved with comment: fixed root cause"
        GeminiOutcome.otherFailure =
      ⟨some "update_ticket", none, some "incident", some "Resolved", some "INC0010111",
        some "fixed root cause"⟩ ∧
    analyze_email true "set ticket inc0010111 to resolved" GeminiOutcome.otherFailure =
      ⟨some "update_ticket", none, some "incident", some "Resolved", some "INC0010111",
        some "Updated via email"⟩ := by
  decide

/-! Claim C7. -/

/-- C7: for every `create_incident` or `create_change` action, the dispatched
create payload has `short_description` equal to the email subject,
`description` equal to the body, initial wire state "1", urgency and impact
both "1" for high priority and both "2" otherwise, and carries
`approval = "requested"` exactly when the target table is `change_request`. -/
theorem c7_create_payload_fields (a : RawAction) (subject body : String)
    (r : SnowCreateResult)
    (h : a.action = some "create_incident" ∨ a.action = some "create_change") :
    dispatchStep a subject body r =
      DispatchEffect.created a.table (createPayload a.table subject body a.priority)
        (pyTruthy (snowIds r).1)
        (pyTruthy (snowIds r).1 && (a.table == some "change_request")) ∧
    (createPayload a.table subject body a.priority).short_description = subject ∧
    (createPayload a.table subject body a.priority).description = body ∧
    (createPayload a.table subject body a.priority).state = "1" ∧
    (createPayload a.table subject body a.priority).urgency =
      (if a.priority = some "high" then "1" else "2") ∧
    (createPayload a.table subject body a.priority).impact =
      (if a.priority = some "high" then "1" else "2") ∧
    ((createPayload a.table subject body a.priority).approval = some "requested" ↔
      a.table = some "change_request") := by
  have hne : ¬(a.action = some "ignore") := by
    rcases h with h | h <;> rw [h] <;> simp
  refine ⟨?_, rfl, rfl, rfl, rfl, rfl, ?_⟩
  · simp only [dispatchStep]
    rw [if_neg hne, if_pos h]
    rfl
  · rw [createPayload]
    by_cases ht : a.table = some "change_request"
    · simp [ht]
    · simp [ht]

/-- C7 witness: a high-priority incident creation acknowledged by the
backend. -/
theorem c7_create_payload_fields_witness :
    dispatchStep ⟨some "create_incident", some "high", some "incident", some "New",
        none, none⟩ "Printer broken" "Urgent: the printer is broken"
        (SnowCreateResult.http 201 "sid1" "INC0000042") =
      DispatchEffect.created (some "incident")
        (createPayload (some "incident") "Printer broken" "Urgent: the printer is broken"
          (some "high"))
        (pyTruthy (snowIds (SnowCreateResult.http 201 "sid1" "INC0000042")).1)
        (pyTruthy (snowIds (SnowCreateResult.http 201 "sid1" "INC0000042")).1 &&
          ((some "incident" : Option String) == some "change_request")) ∧
    (createPayload (some "incident") "Printer broken" "Urgent: the printer is broken"
        (some "high")).short_description = "Printer broken" ∧
    (createPayload (some "incident") "Printer broken" "Urgent: the printer is broken"
        (some "high")).description = "Urgent: the printer is broken" ∧
    (createPayload (some "incident") "Printer broken" "Urgent: the printer is broken"
        (some "high")).state = "1" ∧
    (createPayload (some "incident") "Printer broken" "Urgent: the printer is broken"
        (some "high")).urgency =
      (if (some "high" : Option String) = some "high" then "1" else "2") ∧
    (createPayload (some "incident") "Printer broken" "Urgent: the printer is broken"
        (some "high")).impact =
      (if (some "high" : Option String) = some "high" then "1" else "2") ∧
    ((createPayload (some "incident") "Printer broken" "Urgent: the printer is broken"
        (some "high")).approval = some "requested" ↔
      (some "incident" : Option String) = some "change_request") :=
  c7_create_payload_fields
    ⟨some "create_incident", some "high", some "incident", some "New", none, none⟩
    "Printer broken" "Urgent: the printer is broken"
    (SnowCreateResult.http 201 "sid1" "INC0000042") (Or.inl rfl)

/-! Claim C8. -/

/-- C8 counterexample: a 201-acknowledged creation whose `result.sys_id` is
the empty string — `create_ticket` returns the ids, yet the dispatcher's
truthiness test fails, so the subject is not appended to the ledger and no
approval email is sent even though the table is `change_request`. -/
theorem c8_counterexample :
    snowIds (SnowCreateResult.http 201 "" "CHG0030001") = (some "", some "CHG0030001") ∧
    dispatchStep ⟨some "create_change", some "normal", some "change_request", some "New",
        none, none⟩ "subj" "body" (SnowCreateResult.http 201 "" "CHG0030001") =
      DispatchEffect.created (some "change_request")
        (createPayload (some "change_request") "subj" "body" (some "normal"))
        false false := by
  decide

/-- C8 (amended): when creation is not acknowledged (non-201 status or an
exception) `create_ticket` returns `(None, None)`, nothing is appended to the
ledger and no approval email is sent; on an acknowledged creation whose
`sys_id` is non-empty the subject is appended and the approval email is sent
exactly when the table is `change_request`. -/
theorem c8_create_side_effects (a : RawAction) (subject body : String)
    (s : Nat) (sid num : String)
    (hk : a.action = some "create_incident" ∨ a.action = some "create_change") :
    (s ≠ 201 →
      snowIds (SnowCreateResult.http s sid num) = (none, none) ∧
      dispatchStep a subject body (SnowCreateResult.http s sid num) =
        DispatchEffect.created a.table (createPayload a.table subject body a.priority)
          false false) ∧
    (snowIds SnowCreateResult.exnFailure = (none, none) ∧
      dispatchStep a subject body SnowCreateResult.exnFailure =
        DispatchEffect.created a.table (createPayload a.table subject body a.priority)
          false false) ∧
    (s = 201 → sid ≠ "" →
      dispatchStep a subject body (SnowCreateResult.http s sid num) =
        DispatchEffect.created a.table (createPayload a.table subject body a.priority)
          true (a.table == some "change_request")) := by
  have hne : ¬(a.action = some "ignore") := by
    rcases hk with hk | hk <;> rw [hk] <;> simp
  have hdisp : ∀ r : SnowCreateResult, dispatchStep a subject body r =
      DispatchEffect.created a.table (createPayload a.table subject body a.priority)
        (pyTruthy (snowIds r).1)
        (pyTruthy (snowIds r).1 && (a.table == some "change_request")) := by
    intro r
    simp only [dispatchStep]
    rw [if_neg hne, if_pos hk]
    rfl
  refine ⟨fun hs => ?_, ⟨rfl, ?_⟩, fun hs hsid => ?_⟩
  · have hid : snowIds (SnowCreateResult.http s sid num) = (none, none) := by
      rw [snowIds, if_neg hs]
    refine ⟨hid, ?_⟩
    rw [hdisp, hid]
    rfl
  · rw [hdisp]
    rfl
  · subst hs
    have hid : snowIds (SnowCreateResult.http 201 sid num) = (some sid, some num) := by
      rw [snowIds, if_pos rfl]
    rw [hdisp, hid]
    have htr : pyTruthy (some sid, some num).1 = true := by
      simp only [pyTruthy, Bool.not_eq_true']
      exact beq_eq_false_iff_ne.mpr hsid
    rw [htr, Bool.true_and]

/-- C8 witness: a rejected creation (HTTP 400) produces no side effects, and
an acknowledged creation with a non-empty `sys_id` on a change request
appends to the ledger and sends the approval email. -/
theorem c8_create_side_effects_witness :
    (snowIds (SnowCreateResult.http 400 "e" "n") = (none, none) ∧
      dispatchStep ⟨some "create_change", some "normal", some "change_request", some "New",
          none, none⟩ "s" "b" (SnowCreateResult.http 400 "e" "n") =
        DispatchEffect.created (some "change_request")
          (createPayload (some "change_request") "s" "b" (some "normal")) false false) ∧
    dispatchStep ⟨some "create_change", some "normal", some "change_request", some "New",
        none, none⟩ "s" "b" (SnowCreateResult.http 201 "sid9" "CHG0000007") =
      DispatchEffect.created (some "change_request")
        (createPayload (some "change_request") "s" "b" (some "normal")) true
        ((some "change_request" : Option String) == some "change_request") := by
  constructor
  · exact (c8_create_side_effects
      ⟨some "create_change", some "normal", some "change_request", some "New", none, none⟩
      "s" "b" 400 "e" "n" (Or.inr rfl)).1 (by decide)
  · exact (c8_create_side_effects
      ⟨some "create_change", some "normal", some "change_request", some "New", none, none⟩
      "s" "b" 201 "sid9" "CHG0000007" (Or.inr rfl)).2.2 rfl (by decide)

/-! Claim C9. -/

/-- C9: `update_ticket` with a status outside the six-element status set does
not reject — the PATCH payload's state field falls back to "1", New's wire
code (this also covers a missing status). -/
theorem c9_unknown_status_state_new (table status comment priority : Option String)
    (h : status ∉ [some "New", some "In Progress", some "On Hold",
                   some "Resolved", some "Closed", some "Cancelled"]) :
    (updatePayload table status comment priority).state = "1" := by
  cases status with
  | none => rfl
  | some st =>
    simp only [List.mem_cons, List.not_mem_nil, or_false, not_or,
      Option.some.injEq] at h
    obtain ⟨h1, h2, h3, h4, h5, h6⟩ := h
    have hl : stateMap.lookup st = none := by
      simp [stateMap, List.lookup, beq_eq_false_iff_ne.mpr h1, beq_eq_false_iff_ne.mpr h2,
        beq_eq_false_iff_ne.mpr h3, beq_eq_false_iff_ne.mpr h4, beq_eq_false_iff_ne.mpr h5,
        beq_eq_false_iff_ne.mpr h6]
    show (stateMap.lookup st).getD "1" = "1"
    rw [hl]
    rfl

/-- C9 witness: the unrecognized status `Bogus` maps to wire state "1". -/
theorem c9_unknown_status_state_new_witness :
    (updatePayload (some "incident") (some "Bogus") (some "c") none).state = "1" :=
  c9_unknown_status_state_new (some "incident") (some "Bogus") (some "c") none (by decide)

/-! Claim C10. -/

/-- C10: every `update_ticket` mapping produced by the rule matcher's
`set ticket` path carries no priority field, the dispatcher passes that
absent priority through to `update_ticket`, and the resulting PATCH payload's
priority is "4", never "1". -/
theorem c10_rule_update_priority_code (body : String) (a : RawAction)
    (subject mailBody : String) (r : SnowCreateResult)
    (h : ruleUpdateMatch body = some a) (h2 : a.action = some "update_ticket") :
    a.priority = none ∧
    dispatchStep a subject mailBody r =
      DispatchEffect.updated a.table a.ticket_number
        (updatePayload a.table a.status a.comment a.priority) ∧
    (updatePayload a.table a.status a.comment a.priority).priority = "4" := by
  have hp : a.priority = none := by
    rcases ruleUpdateMatch_spec body a h with hsd | ⟨_, hpn, _⟩
    · subst hsd
      exact absurd h2 (by decide)
    · exact hpn
  refine ⟨hp, ?_, ?_⟩
  · simp only [dispatchStep]
    rw [if_neg (by rw [h2]; decide), if_neg (by rw [h2]; decide), if_pos h2]
  · show (if a.priority = some "high" then "1" else "4") = "4"
    rw [hp, if_neg (by decide)]

/-- C10 witness: a concrete rule-matched update dispatches with priority
code "4". -/
theorem c10_rule_update_priority_code_witness :
    (⟨some "update_ticket", none, some "incident", some "Closed", some "INC0000001",
        some "Updated via email"⟩ : RawAction).priority = none ∧
    dispatchStep ⟨some "update_ticket", none, some "incident", some "Closed",
        some "INC0000001", some "Updated via email"⟩ "s" "b" SnowCreateResult.exnFailure =
      DispatchEffect.updated (some "incident") (some "INC0000001")
        (updatePayload (some "incident") (some "Closed") (some "Updated via email") none) ∧
    (updatePayload (some "incident") (some "Closed") (some "Updated via email")
        none).priority = "4" :=
  c10_rule_update_priority_code "set ticket inc0000001 to closed"
    ⟨some "update_ticket", none, some "incident", some "Closed", some "INC0000001",
      some "Updated via email"⟩ "s" "b" SnowCreateResult.exnFailure (by decide) rfl

end SnowAgent
